import Mathlib

/-!
# Verification of the Sherwood decision-forest demo aggregators and forest I/O

Shallow embedding of the statistics aggregators, training contexts and the
forest deserialization header logic of the Sherwood repository
(`cpp/demo/source/StatisticsAggregators.{h,cpp}`, `Classification.h`,
`DensityEstimation.h`, `Regression.h`, `SemiSupervisedClassification.h`,
`cpp/lib/Forest.h`).

Modelling conventions:
* C++ `double`/`float` arithmetic is modelled by exact real arithmetic on `ℝ`.
  Where the source explicitly produces `std::numeric_limits<double>::infinity()`
  the value is modelled in `EReal`, with the finite branch coerced from `ℝ`.
* A C++ function that can `throw` is modelled as `Option`/`Except`: `none` /
  `.error` is the exception path.
* Counters (`unsigned int sampleCount_`, histogram bins of type
  `unsigned short`) are modelled by `ℕ`; the demo never approaches the
  wrap-around range, and no claim depends on overflow.
-/

namespace Sherwood

noncomputable section

/-- State of `HistogramAggregator` (StatisticsAggregators.h): the bin counts
`bins_[0..binCount_)` are modelled as a list (its length plays the role of
`binCount_`), together with the running `sampleCount_`. -/
structure HistogramAggregator where
  bins : List ℕ
  sampleCount : ℕ
  deriving Repr, DecidableEq

namespace HistogramAggregator

/-- `HistogramAggregator::BinCount`. -/
def BinCount (h : HistogramAggregator) : ℕ := h.bins.length

/-- `HistogramAggregator::SampleCount`. -/
def SampleCount (h : HistogramAggregator) : ℕ := h.sampleCount

/-- `HistogramAggregator::HistogramAggregator(int nClasses)`
(StatisticsAggregators.cpp): throws (`none`) for more than four classes,
otherwise starts with all `nClasses` bins at zero and no samples. -/
def create (nClasses : ℕ) : Option HistogramAggregator :=
  if nClasses > 4 then none
  else some ⟨List.replicate nClasses 0, 0⟩

/-- The loop body `result -= p == 0.0 ? 0.0 : p * log(p)/log(2.0)` of
`HistogramAggregator::Entropy` applied to one bin holding `nk` of the `n`
samples. -/
def entropyTerm (n nk : ℕ) : ℝ :=
  let p : ℝ := (nk : ℝ) / (n : ℝ)
  if p = 0 then 0 else p * Real.log p / Real.log 2

/-- `HistogramAggregator::Entropy` (StatisticsAggregators.cpp): `0` for an
empty aggregator, otherwise minus the sum of `p log₂ p` over the bins with
the `p = 0` terms skipped. -/
def Entropy (h : HistogramAggregator) : ℝ :=
  if h.sampleCount = 0 then 0
  else - (h.bins.map (fun nk => entropyTerm h.sampleCount nk)).sum

/-- `HistogramAggregator::GetProbability` (StatisticsAggregators.cpp):
`bins_[classIndex] / sampleCount_`. -/
def GetProbability (h : HistogramAggregator) (classIndex : ℕ) : ℝ :=
  ((h.bins.getD classIndex 0 : ℕ) : ℝ) / (h.sampleCount : ℝ)

/-- Increment the entry at position `i` of a list of counters
(the effect of `bins_[i]++`). -/
def incNth : List ℕ → ℕ → List ℕ
  | [], _ => []
  | b :: bs, 0 => (b + 1) :: bs
  | b :: bs, i + 1 => b :: incNth bs i

/-- `HistogramAggregator::Aggregate(data, index)` (StatisticsAggregators.cpp)
expressed in terms of the integer label of the chosen sample:
`bins_[label]++; sampleCount_ += 1`. -/
def AggregateLabel (h : HistogramAggregator) (label : ℕ) : HistogramAggregator :=
  ⟨incNth h.bins label, h.sampleCount + 1⟩

/-- Fold `HistogramAggregator::Aggregate` over a list of labels. -/
def aggregateLabels (h : HistogramAggregator) (labels : List ℕ) : HistogramAggregator :=
  labels.foldl AggregateLabel h

end HistogramAggregator

/-- State of `GaussianPdf2d` (StatisticsAggregators.h): mean and the three
distinct entries of the symmetric 2×2 covariance matrix.  The derived members
(`det_Sigma_`, the inverse entries) are recomputed from these where needed. -/
structure GaussianPdf2d where
  mean_x : ℝ
  mean_y : ℝ
  Sigma_11 : ℝ
  Sigma_12 : ℝ
  Sigma_22 : ℝ

namespace GaussianPdf2d

/-- `GaussianPdf2d::GaussianPdf2d(mu_x, mu_y, Sigma_11, Sigma_12, Sigma_22)`
(StatisticsAggregators.cpp): throws (`none`) when the covariance determinant
`Sigma_11*Sigma_22 - Sigma_12*Sigma_12` is negative, otherwise stores the
five parameters. -/
def make (mu_x mu_y Sigma_11 Sigma_12 Sigma_22 : ℝ) : Option GaussianPdf2d :=
  if Sigma_11 * Sigma_22 - Sigma_12 * Sigma_12 < 0 then none
  else some ⟨mu_x, mu_y, Sigma_11, Sigma_12, Sigma_22⟩

/-- `GaussianPdf2d::MeanX`. -/
def MeanX (p : GaussianPdf2d) : ℝ := p.mean_x

/-- `GaussianPdf2d::MeanY`. -/
def MeanY (p : GaussianPdf2d) : ℝ := p.mean_y

/-- `GaussianPdf2d::VarianceX`. -/
def VarianceX (p : GaussianPdf2d) : ℝ := p.Sigma_11

/-- `GaussianPdf2d::VarianceY`. -/
def VarianceY (p : GaussianPdf2d) : ℝ := p.Sigma_22

/-- `GaussianPdf2d::CovarianceXY`. -/
def CovarianceXY (p : GaussianPdf2d) : ℝ := p.Sigma_12

/-- The determinant `Sigma_11_ * Sigma_22_ - Sigma_12_ * Sigma_12_`
recomputed by `GaussianPdf2d::Entropy`. -/
def determinant (p : GaussianPdf2d) : ℝ :=
  p.Sigma_11 * p.Sigma_22 - p.Sigma_12 * p.Sigma_12

/-- `GaussianPdf2d::Entropy` (StatisticsAggregators.cpp): `+∞` when the
determinant is `≤ 0`, otherwise `0.5 * log((2·3.141593·2.718282)² · det)`. -/
def Entropy (p : GaussianPdf2d) : EReal :=
  if p.determinant ≤ 0 then (⊤ : EReal)
  else ((0.5 * Real.log ((2 * 3.141593 * 2.718282) ^ 2 * p.determinant) : ℝ) : EReal)

end GaussianPdf2d

/-- State of `GaussianAggregator2d` (StatisticsAggregators.h): running sums,
sum of squares and products of the aggregated 2-D samples, the sample count,
and the prior hyperparameters `a_`, `b_`. -/
structure GaussianAggregator2d where
  sampleCount : ℕ
  sx : ℝ
  sy : ℝ
  sxx : ℝ
  syy : ℝ
  sxy : ℝ
  a : ℝ
  b : ℝ

namespace GaussianAggregator2d

/-- `GaussianAggregator2d::GaussianAggregator2d(double a, double b)`
(StatisticsAggregators.cpp): zeroes all sums and clamps the hyperparameters,
`a_ < 0.001 ↦ 0.001` and `b_ < 1 ↦ 1.0`. -/
def init (a b : ℝ) : GaussianAggregator2d :=
  { sampleCount := 0, sx := 0, sy := 0, sxx := 0, syy := 0, sxy := 0
    a := if a < 0.001 then 0.001 else a
    b := if b < 1 then 1 else b }

/-- `GaussianAggregator2d::SampleCount`. -/
def SampleCount (g : GaussianAggregator2d) : ℕ := g.sampleCount

/-- The local `mx = sx_ / sampleCount_` of `GaussianAggregator2d::GetPdf`. -/
def fittedMeanX (g : GaussianAggregator2d) : ℝ := g.sx / (g.sampleCount : ℝ)

/-- The local `my = sy_ / sampleCount_` of `GaussianAggregator2d::GetPdf`. -/
def fittedMeanY (g : GaussianAggregator2d) : ℝ := g.sy / (g.sampleCount : ℝ)

/-- The maximum-likelihood variance
`vxx = sxx_/sampleCount_ - (sx_*sx_)/(sampleCount_*sampleCount_)` of
`GaussianAggregator2d::GetPdf`. -/
def mlVxx (g : GaussianAggregator2d) : ℝ :=
  g.sxx / (g.sampleCount : ℝ) - (g.sx * g.sx) / ((g.sampleCount : ℝ) * (g.sampleCount : ℝ))

/-- The maximum-likelihood variance `vyy` of `GaussianAggregator2d::GetPdf`. -/
def mlVyy (g : GaussianAggregator2d) : ℝ :=
  g.syy / (g.sampleCount : ℝ) - (g.sy * g.sy) / ((g.sampleCount : ℝ) * (g.sampleCount : ℝ))

/-- The maximum-likelihood covariance `vxy` of `GaussianAggregator2d::GetPdf`. -/
def mlVxy (g : GaussianAggregator2d) : ℝ :=
  g.sxy / (g.sampleCount : ℝ) - (g.sx * g.sy) / ((g.sampleCount : ℝ) * (g.sampleCount : ℝ))

/-- The prior weight `alpha = sampleCount_/(sampleCount_ + a_)` of
`GaussianAggregator2d::GetPdf`. -/
def alpha (g : GaussianAggregator2d) : ℝ :=
  (g.sampleCount : ℝ) / ((g.sampleCount : ℝ) + g.a)

/-- The prior-blended `vxx = alpha * vxx + (1 - alpha) * b_` passed as
`Sigma_11` by `GaussianAggregator2d::GetPdf`. -/
def fittedSigma11 (g : GaussianAggregator2d) : ℝ :=
  g.alpha * g.mlVxx + (1 - g.alpha) * g.b

/-- The prior-blended `vxy = alpha * vxy` passed as `Sigma_12` by
`GaussianAggregator2d::GetPdf`. -/
def fittedSigma12 (g : GaussianAggregator2d) : ℝ :=
  g.alpha * g.mlVxy

/-- The prior-blended `vyy = alpha * vyy + (1 - alpha) * b_` passed as
`Sigma_22` by `GaussianAggregator2d::GetPdf`. -/
def fittedSigma22 (g : GaussianAggregator2d) : ℝ :=
  g.alpha * g.mlVyy + (1 - g.alpha) * g.b

/-- Determinant of the prior-blended covariance matrix that
`GaussianAggregator2d::GetPdf` hands to the `GaussianPdf2d` constructor. -/
def fittedCovarianceDet (g : GaussianAggregator2d) : ℝ :=
  g.fittedSigma11 * g.fittedSigma22 - g.fittedSigma12 * g.fittedSigma12

/-- `GaussianAggregator2d::GetPdf` (StatisticsAggregators.cpp): maximum
likelihood mean and covariance from the running sums, blended with the prior
via `alpha = n/(n+a)`, then handed to the `GaussianPdf2d` constructor
(argument order `(mx, my, vxx, vxy, vyy)`). -/
def GetPdf (g : GaussianAggregator2d) : Option GaussianPdf2d :=
  GaussianPdf2d.make g.fittedMeanX g.fittedMeanY g.fittedSigma11 g.fittedSigma12
    g.fittedSigma22

/-- `GaussianAggregator2d::Aggregate(data, index)` (StatisticsAggregators.cpp)
expressed in terms of the selected 2-D sample `p`: adds the coordinates, their
squares and their product to the running sums. -/
def Aggregate (g : GaussianAggregator2d) (p : ℝ × ℝ) : GaussianAggregator2d :=
  { g with
    sx := g.sx + p.1
    sy := g.sy + p.2
    sxx := g.sxx + p.1 ^ 2
    syy := g.syy + p.2 ^ 2
    sxy := g.sxy + p.1 * p.2
    sampleCount := g.sampleCount + 1 }

/-- Fold `GaussianAggregator2d::Aggregate` over a list of 2-D samples. -/
def aggregateList (g : GaussianAggregator2d) (pts : List (ℝ × ℝ)) : GaussianAggregator2d :=
  pts.foldl Aggregate g

end GaussianAggregator2d

/-- State of `LinearFitAggregator1d` (StatisticsAggregators.h): the entries of
`XᵀX` (2×2), `XᵀY` (2), `ΣY²` and the sample count. -/
structure LinearFitAggregator1d where
  sampleCount : ℕ
  XT_X_11 : ℝ
  XT_X_12 : ℝ
  XT_X_21 : ℝ
  XT_X_22 : ℝ
  XT_Y_1 : ℝ
  XT_Y_2 : ℝ
  Y2 : ℝ

namespace LinearFitAggregator1d

/-- `LinearFitAggregator1d::Pi` (Regression.cpp). -/
def Pi : ℝ := 3.1415926535897932384626433832795

/-- `LinearFitAggregator1d::E` (Regression.cpp). -/
def E : ℝ := 2.7182818284590452353602874713527

/-- The determinant `XT_X_11_ * XT_X_22_ - XT_X_12_ * XT_X_12_` computed by
`LinearFitAggregator1d::Entropy`. -/
def determinant (l : LinearFitAggregator1d) : ℝ :=
  l.XT_X_11 * l.XT_X_22 - l.XT_X_12 * l.XT_X_12

/-- `LinearFitAggregator1d::Entropy` (StatisticsAggregators.h): `+∞` for
fewer than three samples, `+∞` when `det(XᵀX) = 0`, otherwise
`0.5 * log((2·π·e)² · det)`. -/
def Entropy (l : LinearFitAggregator1d) : EReal :=
  if l.sampleCount < 3 then (⊤ : EReal)
  else if l.determinant = 0 then (⊤ : EReal)
  else ((0.5 * Real.log ((2 * Pi * E) ^ 2 * l.determinant) : ℝ) : EReal)

end LinearFitAggregator1d

/-- One sample of a `DataPointCollection` as consumed by the semi-supervised
aggregator: a 2-D point and its integer class label. -/
structure LabelledDataPoint where
  x : ℝ
  y : ℝ
  label : ℤ

/-- The part of `DataPointCollection` (DataPointCollection.h) the aggregators
read: samples indexed `0..N-1`, each with coordinates and an integer label. -/
def DataPointCollection : Type := List LabelledDataPoint

namespace DataPointCollection

/-- `DataPointCollection::UnknownClassLabel = -1` (DataPointCollection.h). -/
def UnknownClassLabel : ℤ := -1

/-- `DataPointCollection::GetDataPoint(i)` as the pair of coordinates. -/
def GetDataPoint (d : DataPointCollection) (i : ℕ) : ℝ × ℝ :=
  ((List.getD d i ⟨0, 0, UnknownClassLabel⟩).x, (List.getD d i ⟨0, 0, UnknownClassLabel⟩).y)

/-- `DataPointCollection::GetIntegerLabel(i)` (DataPointCollection.h). -/
def GetIntegerLabel (d : DataPointCollection) (i : ℕ) : ℤ :=
  (List.getD d i ⟨0, 0, UnknownClassLabel⟩).label

/-- `DataPointCollection::Count`. -/
def Count (d : DataPointCollection) : ℕ := List.length d

end DataPointCollection

/-- `HistogramAggregator::Aggregate(const IDataPointCollection&, index)`
(StatisticsAggregators.cpp): `bins_[concreteData.GetIntegerLabel(index)]++;
sampleCount_ += 1`. -/
def HistogramAggregator.AggregateData (h : HistogramAggregator)
    (data : DataPointCollection) (index : ℕ) : HistogramAggregator :=
  h.AggregateLabel (data.GetIntegerLabel index).toNat

/-- `GaussianAggregator2d::Aggregate(const IDataPointCollection&, index)`
(StatisticsAggregators.cpp) via the sample's coordinates. -/
def GaussianAggregator2d.AggregateData (g : GaussianAggregator2d)
    (data : DataPointCollection) (index : ℕ) : GaussianAggregator2d :=
  g.Aggregate (data.GetDataPoint index)

/-- State of `SemiSupervisedClassificationStatisticsAggregator`
(StatisticsAggregators.h): a Gaussian-2D aggregator and a histogram
aggregator side by side. -/
structure SemiSupervisedClassificationStatisticsAggregator where
  nClasses : ℕ
  a : ℝ
  b : ℝ
  gaussianAggregator2d : GaussianAggregator2d
  histogramAggregator : HistogramAggregator

namespace SemiSupervisedClassificationStatisticsAggregator

/-- `SemiSupervisedClassificationStatisticsAggregator::Aggregate(data, index)`
(StatisticsAggregators.cpp): always aggregates the density statistics, and
aggregates the histogram statistics only when the sample's label is not
`DataPointCollection::UnknownClassLabel`. -/
def Aggregate (s : SemiSupervisedClassificationStatisticsAggregator)
    (data : DataPointCollection) (index : ℕ) :
    SemiSupervisedClassificationStatisticsAggregator :=
  { s with
    gaussianAggregator2d := s.gaussianAggregator2d.AggregateData data index
    histogramAggregator :=
      if data.GetIntegerLabel index ≠ DataPointCollection.UnknownClassLabel then
        s.histogramAggregator.AggregateData data index
      else s.histogramAggregator }

/-- `GetGaussianAggregator2d`. -/
def GetGaussianAggregator2d (s : SemiSupervisedClassificationStatisticsAggregator) :
    GaussianAggregator2d := s.gaussianAggregator2d

/-- `GetHistogramAggregator`. -/
def GetHistogramAggregator (s : SemiSupervisedClassificationStatisticsAggregator) :
    HistogramAggregator := s.histogramAggregator

end SemiSupervisedClassificationStatisticsAggregator

namespace ClassificationTrainingContext

/-- `ClassificationTrainingContext::ComputeInformationGain` (Classification.h):
`0` when the children together hold at most one sample, otherwise the parent
entropy minus the sample-count-weighted mean of the child entropies. -/
def ComputeInformationGain (allStatistics leftStatistics rightStatistics :
    HistogramAggregator) : ℝ :=
  let entropyBefore := allStatistics.Entropy
  let nTotalSamples : ℕ := leftStatistics.sampleCount + rightStatistics.sampleCount
  if nTotalSamples ≤ 1 then 0
  else
    entropyBefore -
      ((leftStatistics.sampleCount : ℝ) * leftStatistics.Entropy +
        (rightStatistics.sampleCount : ℝ) * rightStatistics.Entropy) / (nTotalSamples : ℝ)

/-- `ClassificationTrainingContext::ShouldTerminate` (Classification.h):
`gain < 0.01`, ignoring the three aggregator arguments. -/
def ShouldTerminate (parent leftChild rightChild : HistogramAggregator)
    (gain : ℝ) : Prop :=
  gain < 0.01

end ClassificationTrainingContext

/-! ### IEEE-double model for the density-estimation information gain

`DensityEstimationTrainingContext::ComputeInformationGain` evaluates
`GetPdf().Entropy()` on children that may hold no samples at all.  On that
path the source's double arithmetic produces NaN (`0.0/0`) and propagates it
(`0 * NaN = NaN`), which the real-valued model above cannot express (there
`x/0 = 0`).  `DReal` models a double as either NaN (`none`) or an extended
real, with the IEEE-754 rules for the operations this code path performs,
and the pdf-fitting pipeline is re-embedded over it for this gain. -/

/-- An IEEE double value as used on the density-gain path: `none` is NaN,
`some x` an extended real (finite or `±∞`). -/
abbrev DReal : Type := Option EReal

namespace DReal

/-- NaN. -/
def nan : DReal := none

/-- IEEE addition: NaN propagates, and `(+∞) + (-∞)` is NaN. -/
def add : DReal → DReal → DReal
  | some x, some y =>
    if (x = ⊤ ∧ y = ⊥) ∨ (x = ⊥ ∧ y = ⊤) then none else some (x + y)
  | _, _ => none

/-- IEEE negation. -/
def neg : DReal → DReal
  | some x => some (-x)
  | none => none

/-- IEEE subtraction, `x - y = x + (-y)`. -/
def sub (x y : DReal) : DReal := add x (neg y)

/-- IEEE multiplication: NaN propagates, and `0 · (±∞)` is NaN. -/
def mul : DReal → DReal → DReal
  | some x, some y =>
    if (x = 0 ∧ (y = ⊤ ∨ y = ⊥)) ∨ ((x = ⊤ ∨ x = ⊥) ∧ y = 0) then none
    else some (x * y)
  | _, _ => none

/-- IEEE division: NaN propagates, `0/0` and `(±∞)/(±∞)` are NaN, a nonzero
value divided by (positive) zero is a signed infinity, and a finite value
divided by `±∞` is zero. -/
def div : DReal → DReal → DReal
  | some x, some y =>
    if y = 0 then (if x = 0 then none else if 0 < x then some ⊤ else some ⊥)
    else if (x = ⊤ ∨ x = ⊥) ∧ (y = ⊤ ∨ y = ⊥) then none
    else some (x / y)
  | _, _ => none

/-- IEEE `log`: NaN for NaN or negative arguments (including `-∞`), `-∞` at
zero, `+∞` at `+∞`. -/
def log : DReal → DReal
  | some x =>
    if x = ⊥ then none
    else if x = 0 then some ⊥
    else if x < 0 then none
    else if x = ⊤ then some ⊤
    else some ((Real.log x.toReal : ℝ) : EReal)
  | none => none

/-- IEEE `<`: false whenever NaN is involved. -/
def lt : DReal → DReal → Prop
  | some x, some y => x < y
  | _, _ => False

/-- IEEE `≤`: false whenever NaN is involved. -/
def le : DReal → DReal → Prop
  | some x, some y => x ≤ y
  | _, _ => False

theorem add_nan (x : DReal) : add x none = none := by cases x <;> rfl

theorem nan_add (y : DReal) : add none y = none := by cases y <;> rfl

theorem mul_nan (x : DReal) : mul x none = none := by cases x <;> rfl

theorem nan_mul (y : DReal) : mul none y = none := by cases y <;> rfl

theorem div_nan (x : DReal) : div x none = none := by cases x <;> rfl

theorem nan_div (y : DReal) : div none y = none := by cases y <;> rfl

theorem sub_nan (x : DReal) : sub x none = none := by cases x <;> rfl

theorem nan_sub (y : DReal) : sub none y = none := by cases y <;> rfl

theorem neg_coe (y : ℝ) : neg (some (y : EReal)) = some ((-y : ℝ) : EReal) := by
  unfold neg
  rw [EReal.coe_neg]

theorem add_coe (x y : ℝ) : add (some (x : EReal)) (some (y : EReal)) =
    some ((x + y : ℝ) : EReal) := by
  show (if ((x : EReal) = ⊤ ∧ (y : EReal) = ⊥) ∨
      ((x : EReal) = ⊥ ∧ (y : EReal) = ⊤) then none
    else some ((x : EReal) + (y : EReal))) = some ((x + y : ℝ) : EReal)
  rw [if_neg (by simp [EReal.coe_ne_top, EReal.coe_ne_bot]), ← EReal.coe_add]

theorem sub_coe (x y : ℝ) : sub (some (x : EReal)) (some (y : EReal)) =
    some ((x - y : ℝ) : EReal) := by
  unfold sub
  rw [neg_coe, add_coe, ← sub_eq_add_neg]

theorem mul_coe (x y : ℝ) : mul (some (x : EReal)) (some (y : EReal)) =
    some ((x * y : ℝ) : EReal) := by
  show (if ((x : EReal) = 0 ∧ ((y : EReal) = ⊤ ∨ (y : EReal) = ⊥)) ∨
      (((x : EReal) = ⊤ ∨ (x : EReal) = ⊥) ∧ (y : EReal) = 0) then none
    else some ((x : EReal) * (y : EReal))) = some ((x * y : ℝ) : EReal)
  rw [if_neg (by simp [EReal.coe_ne_top, EReal.coe_ne_bot]), ← EReal.coe_mul]

theorem div_coe (x y : ℝ) (hy : y ≠ 0) :
    div (some (x : EReal)) (some (y : EReal)) = some ((x / y : ℝ) : EReal) := by
  show (if (y : EReal) = 0 then
      (if (x : EReal) = 0 then none
        else if 0 < (x : EReal) then some ⊤ else some ⊥)
    else if ((x : EReal) = ⊤ ∨ (x : EReal) = ⊥) ∧
        ((y : EReal) = ⊤ ∨ (y : EReal) = ⊥) then none
    else some ((x : EReal) / (y : EReal))) = some ((x / y : ℝ) : EReal)
  rw [if_neg (by simp [EReal.coe_eq_zero, hy]),
    if_neg (by simp [EReal.coe_ne_top, EReal.coe_ne_bot]), ← EReal.coe_div]

theorem lt_coe_zero (x : ℝ) : lt (some (x : EReal)) (some 0) ↔ x < 0 := by
  unfold lt
  exact EReal.coe_neg'

/-- The comparisons are decidable (classically, through `EReal`'s linear
order). -/
instance decidableLt : ∀ x y : DReal, Decidable (lt x y)
  | some a, some b => inferInstanceAs (Decidable (a < b))
  | some _, none => isFalse fun h => h
  | none, _ => isFalse fun h => h

/-- See `decidableLt`. -/
instance decidableLe : ∀ x y : DReal, Decidable (le x y)
  | some a, some b => inferInstanceAs (Decidable (a ≤ b))
  | some _, none => isFalse fun h => h
  | none, _ => isFalse fun h => h

end DReal

/-- The fitted-pdf record with IEEE-double entries, for the density-gain
path (same fields as `GaussianPdf2d`). -/
structure GaussianPdf2dD where
  mean_x : DReal
  mean_y : DReal
  Sigma_11 : DReal
  Sigma_12 : DReal
  Sigma_22 : DReal

namespace GaussianPdf2dD

/-- `GaussianPdf2d::GaussianPdf2d` over IEEE doubles: throws (`none`) exactly
when `det_Sigma_ < 0.0` — false for a NaN determinant, so a NaN covariance
is accepted. -/
def make (mu_x mu_y Sigma_11 Sigma_12 Sigma_22 : DReal) : Option GaussianPdf2dD :=
  if DReal.lt (DReal.sub (DReal.mul Sigma_11 Sigma_22) (DReal.mul Sigma_12 Sigma_12))
      (some 0) then none
  else some ⟨mu_x, mu_y, Sigma_11, Sigma_12, Sigma_22⟩

/-- `GaussianPdf2d::Entropy` over IEEE doubles: `+∞` when `det ≤ 0` (false
for a NaN determinant), else `0.5 * log((2·3.141593·2.718282)² · det)` —
which is NaN for a NaN determinant. -/
def Entropy (p : GaussianPdf2dD) : DReal :=
  let det := DReal.sub (DReal.mul p.Sigma_11 p.Sigma_22)
    (DReal.mul p.Sigma_12 p.Sigma_12)
  if DReal.le det (some 0) then some (⊤ : EReal)
  else DReal.mul (some ((0.5 : ℝ) : EReal))
    (DReal.log (DReal.mul (some ((((2 * 3.141593 * 2.718282) ^ 2 : ℝ)) : EReal)) det))

end GaussianPdf2dD

/-- `GaussianAggregator2d::GetPdf` (StatisticsAggregators.cpp) re-embedded
over IEEE doubles, as consumed by the density-estimation gain: with no
samples, `sx_/sampleCount_ = 0.0/0` is NaN and the NaN reaches the blended
covariance; the `GaussianPdf2d` constructor still succeeds there because
`NaN < 0.0` is false. -/
def GaussianAggregator2d.GetPdfD (g : GaussianAggregator2d) : Option GaussianPdf2dD :=
  let n : DReal := some (((g.sampleCount : ℝ)) : EReal)
  let mx := DReal.div (some ((g.sx : ℝ) : EReal)) n
  let my := DReal.div (some ((g.sy : ℝ) : EReal)) n
  let vxx := DReal.sub (DReal.div (some ((g.sxx : ℝ) : EReal)) n)
    (DReal.div (some ((g.sx * g.sx : ℝ) : EReal)) (DReal.mul n n))
  let vyy := DReal.sub (DReal.div (some ((g.syy : ℝ) : EReal)) n)
    (DReal.div (some ((g.sy * g.sy : ℝ) : EReal)) (DReal.mul n n))
  let vxy := DReal.sub (DReal.div (some ((g.sxy : ℝ) : EReal)) n)
    (DReal.div (some ((g.sx * g.sy : ℝ) : EReal)) (DReal.mul n n))
  let alpha := DReal.div n (DReal.add n (some ((g.a : ℝ) : EReal)))
  GaussianPdf2dD.make mx my
    (DReal.add (DReal.mul alpha vxx)
      (DReal.mul (DReal.sub (some ((1 : ℝ) : EReal)) alpha) (some ((g.b : ℝ) : EReal))))
    (DReal.mul alpha vxy)
    (DReal.add (DReal.mul alpha vyy)
      (DReal.mul (DReal.sub (some ((1 : ℝ) : EReal)) alpha) (some ((g.b : ℝ) : EReal))))

namespace DensityEstimationTrainingContext

/-- `DensityEstimationTrainingContext::ComputeInformationGain`
(DensityEstimation.h) over IEEE doubles: parent pdf entropy minus the
sample-count-weighted mean of the child pdf entropies — with no special case
for small child counts.  The outer `none` models the exception thrown when a
`GetPdf` call rejects a strictly negative covariance determinant; a NaN
covariance (empty child) instead flows through the arithmetic. -/
def ComputeInformationGain (allStatistics leftStatistics rightStatistics :
    GaussianAggregator2d) : Option DReal :=
  match allStatistics.GetPdfD, leftStatistics.GetPdfD, rightStatistics.GetPdfD with
  | some pdfAll, some pdfLeft, some pdfRight =>
    let nTotalSamples : ℕ := leftStatistics.sampleCount + rightStatistics.sampleCount
    some (DReal.sub pdfAll.Entropy
      (DReal.div
        (DReal.add
          (DReal.mul (some ((leftStatistics.sampleCount : ℝ) : EReal))
            pdfLeft.Entropy)
          (DReal.mul (some ((rightStatistics.sampleCount : ℝ) : EReal))
            pdfRight.Entropy))
        (some ((nTotalSamples : ℝ) : EReal))))
  | _, _, _ => none

/-- `DensityEstimationTrainingContext::ShouldTerminate` (DensityEstimation.h):
`gain < 0.25`, ignoring the three aggregator arguments. -/
def ShouldTerminate (parent leftChild rightChild : GaussianAggregator2d)
    (gain : ℝ) : Prop :=
  gain < 0.25

end DensityEstimationTrainingContext

namespace RegressionTrainingContext

/-- `RegressionTrainingContext::ShouldTerminate` (Regression.h):
`gain < 0.05`, ignoring the three aggregator arguments. -/
def ShouldTerminate (parent leftChild rightChild : LinearFitAggregator1d)
    (gain : ℝ) : Prop :=
  gain < 0.05

end RegressionTrainingContext

namespace SemiSupervisedClassificationTrainingContext

/-- `SemiSupervisedClassificationTrainingContext::ShouldTerminate`
(SemiSupervisedClassification.h): `gain < 0.4`, ignoring the three aggregator
arguments. -/
def ShouldTerminate (parent leftChild rightChild :
    SemiSupervisedClassificationStatisticsAggregator) (gain : ℝ) : Prop :=
  gain < 0.4

end SemiSupervisedClassificationTrainingContext

/-- A binary stream, as the list of bytes still to be read. -/
def ByteStream : Type := List ℕ

namespace Forest

/-- `Forest<F,S>::binaryFileHeader_ =
"MicrosoftResearch.Cambridge.Sherwood.Forest"` (Forest.h), as its list of
ASCII byte values. -/
def binaryFileHeader : List ℕ :=
  "MicrosoftResearch.Cambridge.Sherwood.Forest".data.map Char.toNat

/-- Read `n` bytes from a stream; `none` when the stream is exhausted first
(the spec's `CorruptStream`; the reference code would read into
partially-initialised memory here). -/
def readBytes (n : ℕ) (s : List ℕ) : Option (List ℕ × List ℕ) :=
  if n ≤ s.length then some (s.take n, s.drop n) else none

/-- Little-endian decoding of four bytes into an unsigned 32-bit value, the
layout `i.read((char*)&v, 4)` produces for the demo's target platforms (the
spec fixes the format as little-endian). -/
def decodeUInt32LE (b : List ℕ) : ℕ :=
  b.getD 0 0 + 256 * b.getD 1 0 + 65536 * b.getD 2 0 + 16777216 * b.getD 3 0

/-- Reinterpret an unsigned 32-bit value as a two's-complement `int`. -/
def toInt32 (n : ℕ) : ℤ :=
  if n < 2 ^ 31 then (n : ℤ) else (n : ℤ) - 2 ^ 32

/-- The loop `for(t=0; t<treeCount; t++) Tree<F,S>::Deserialize(i)`
(Forest.h), parameterised by the tree-record reader (`Tree.h` is outside the
embedded sources): runs it `count` times, threading the remaining stream. -/
def readTrees (readTree : List ℕ → Option (List ℕ)) : ℕ → List ℕ → Option (List ℕ)
  | 0, s => some s
  | count + 1, s => (readTree s).bind (readTrees readTree count)

/-- `Forest<F,S>::Deserialize(std::istream&)` (Forest.h), parameterised by the
tree-record reader: compare the leading bytes with the header (`strcmp`
against the NUL-terminated copy succeeds exactly when the 43 bytes match,
since the header contains no NUL and a short read leaves zero padding), read
the two `int32` version fields, accept only version `(0, 0)`, then read the
`int32` tree count and that many tree records.  On success it returns the
number of trees read and the unread remainder of the stream. -/
def Deserialize (readTree : List ℕ → Option (List ℕ)) (s : List ℕ) :
    Except String (ℕ × List ℕ) :=
  if s.take binaryFileHeader.length ≠ binaryFileHeader then
    .error "Unsupported forest format."
  else
    match readBytes 4 (s.drop binaryFileHeader.length) with
    | none => .error "Corrupt stream."
    | some (majorBytes, s1) =>
      match readBytes 4 s1 with
      | none => .error "Corrupt stream."
      | some (minorBytes, s2) =>
        if toInt32 (decodeUInt32LE majorBytes) = 0 ∧
            toInt32 (decodeUInt32LE minorBytes) = 0 then
          match readBytes 4 s2 with
          | none => .error "Corrupt stream."
          | some (treeCountBytes, s3) =>
            let treeCount : ℤ := toInt32 (decodeUInt32LE treeCountBytes)
            match readTrees readTree treeCount.toNat s3 with
            | none => .error "Corrupt stream."
            | some rest => .ok (treeCount.toNat, rest)
        else .error "Unsupported file version number."

end Forest

end

/-! ## Claim theorems -/

/-- Claim C6: `HistogramAggregator::Entropy` returns the base-2 Shannon
entropy `-∑ (n_k/n) · log₂(n_k/n)` over its bins (with `0 · log 0 = 0`, which
is automatic for `Real.logb`), and returns `0` when the sample count is 0. -/
theorem histogramAggregator_entropy_is_shannon (h : HistogramAggregator) :
    h.Entropy =
      if h.sampleCount = 0 then 0
      else - (h.bins.map (fun (nk : ℕ) =>
        ((nk : ℝ) / (h.sampleCount : ℝ)) *
          Real.logb 2 ((nk : ℝ) / (h.sampleCount : ℝ)))).sum := by
  unfold HistogramAggregator.Entropy
  by_cases h0 : h.sampleCount = 0
  · simp [h0]
  · rw [if_neg h0, if_neg h0]
    have hfun : (fun nk => HistogramAggregator.entropyTerm h.sampleCount nk) =
        fun (nk : ℕ) => ((nk : ℝ) / (h.sampleCount : ℝ)) *
          Real.logb 2 ((nk : ℝ) / (h.sampleCount : ℝ)) := by
      funext nk
      simp only [HistogramAggregator.entropyTerm, Real.logb]
      by_cases hp : ((nk : ℝ) / (h.sampleCount : ℝ)) = 0
      · simp [hp]
      · rw [if_neg hp, mul_div_assoc]
    rw [hfun]

/-- Claim C10: each reference training context's `ShouldTerminate` ignores the
parent and child statistics and holds exactly when the supplied gain is below
the task-specific constant: 0.01 for classification, 0.25 for density
estimation, 0.05 for regression, 0.4 for semi-supervised classification. -/
theorem shouldTerminate_fixed_thresholds :
    (∀ (p l r : HistogramAggregator) (gain : ℝ),
      ClassificationTrainingContext.ShouldTerminate p l r gain ↔ gain < 0.01) ∧
    (∀ (p l r : GaussianAggregator2d) (gain : ℝ),
      DensityEstimationTrainingContext.ShouldTerminate p l r gain ↔ gain < 0.25) ∧
    (∀ (p l r : LinearFitAggregator1d) (gain : ℝ),
      RegressionTrainingContext.ShouldTerminate p l r gain ↔ gain < 0.05) ∧
    (∀ (p l r : SemiSupervisedClassificationStatisticsAggregator) (gain : ℝ),
      SemiSupervisedClassificationTrainingContext.ShouldTerminate p l r gain ↔
        gain < 0.4) :=
  ⟨fun _ _ _ _ => Iff.rfl, fun _ _ _ _ => Iff.rfl, fun _ _ _ _ => Iff.rfl,
    fun _ _ _ _ => Iff.rfl⟩

/-- Witness for C10: the classification context at gain 0 terminates, the
density-estimation context at gain 0.3 does not. -/
theorem shouldTerminate_fixed_thresholds_witness :
    (ClassificationTrainingContext.ShouldTerminate ⟨[], 0⟩ ⟨[], 0⟩ ⟨[], 0⟩ 0 ↔
      (0 : ℝ) < 0.01) ∧
    (DensityEstimationTrainingContext.ShouldTerminate (.init 1 1) (.init 1 1)
      (.init 1 1) 0.3 ↔ (0.3 : ℝ) < 0.25) :=
  ⟨shouldTerminate_fixed_thresholds.1 ⟨[], 0⟩ ⟨[], 0⟩ ⟨[], 0⟩ 0,
    shouldTerminate_fixed_thresholds.2.1 (.init 1 1) (.init 1 1) (.init 1 1) 0.3⟩

/-- Claim C5: `LinearFitAggregator1d::Entropy` returns `+∞` if the sample
count is below 3 or `det(XᵀX) = 0`, and otherwise
`0.5 * log((2·π·e)² · det(XᵀX))` (with the source's `Pi`/`E` constants). -/
theorem linearFitAggregator_entropy_spec (l : LinearFitAggregator1d) :
    (l.sampleCount < 3 ∨ l.determinant = 0 → l.Entropy = (⊤ : EReal)) ∧
    (3 ≤ l.sampleCount → l.determinant ≠ 0 →
      l.Entropy = ((0.5 * Real.log ((2 * LinearFitAggregator1d.Pi *
        LinearFitAggregator1d.E) ^ 2 * l.determinant) : ℝ) : EReal)) := by
  constructor
  · rintro (h | h)
    · simp [LinearFitAggregator1d.Entropy, h]
    · simp [LinearFitAggregator1d.Entropy, h]
  · intro h3 hdet
    unfold LinearFitAggregator1d.Entropy
    rw [if_neg (by omega), if_neg hdet]

/-- Witness for C5: an empty aggregator has entropy `+∞`; an aggregator with
three samples and `XᵀX = [[2,1],[1,1]]` (determinant 1) gets the finite
formula. -/
theorem linearFitAggregator_entropy_spec_witness :
    (⟨0, 0, 0, 0, 0, 0, 0, 0⟩ : LinearFitAggregator1d).Entropy = (⊤ : EReal) ∧
    (⟨3, 2, 1, 1, 1, 0, 0, 0⟩ : LinearFitAggregator1d).Entropy =
      ((0.5 * Real.log ((2 * LinearFitAggregator1d.Pi *
        LinearFitAggregator1d.E) ^ 2 *
        (⟨3, 2, 1, 1, 1, 0, 0, 0⟩ : LinearFitAggregator1d).determinant) : ℝ) :
        EReal) :=
  ⟨(linearFitAggregator_entropy_spec _).1 (Or.inl (by norm_num)),
    (linearFitAggregator_entropy_spec _).2 (by norm_num)
      (by norm_num [LinearFitAggregator1d.determinant])⟩

/-- Claim C7: `SemiSupervisedClassificationStatisticsAggregator::Aggregate`
always folds the sample into its Gaussian sub-aggregator, and folds it into
its histogram sub-aggregator if and only if the sample's integer label
differs from `DataPointCollection::UnknownClassLabel = -1`. -/
theorem semiSupervisedAggregator_aggregate_spec
    (s : SemiSupervisedClassificationStatisticsAggregator)
    (data : DataPointCollection) (index : ℕ) (hidx : index < data.Count) :
    (s.Aggregate data index).gaussianAggregator2d =
      s.gaussianAggregator2d.Aggregate (data.GetDataPoint index) ∧
    (data.GetIntegerLabel index ≠ DataPointCollection.UnknownClassLabel →
      (s.Aggregate data index).histogramAggregator =
        s.histogramAggregator.AggregateLabel (data.GetIntegerLabel index).toNat) ∧
    (data.GetIntegerLabel index = DataPointCollection.UnknownClassLabel →
      (s.Aggregate data index).histogramAggregator = s.histogramAggregator) := by
  refine ⟨rfl, fun hne => ?_, fun heq => ?_⟩
  · simp [SemiSupervisedClassificationStatisticsAggregator.Aggregate,
      HistogramAggregator.AggregateData, hne]
  · simp [SemiSupervisedClassificationStatisticsAggregator.Aggregate, heq]

/-- Witness for C7: on a two-sample collection whose first sample has label 1
and whose second is unlabelled (label -1), aggregating sample 0 updates the
histogram while aggregating sample 1 leaves it unchanged (the Gaussian is
updated in both cases). -/
theorem semiSupervisedAggregator_aggregate_spec_witness :
    (((⟨2, 1, 1, .init 1 1, ⟨[0, 0], 0⟩⟩ :
        SemiSupervisedClassificationStatisticsAggregator).Aggregate
        [⟨0.5, 0.25, 1⟩, ⟨0, 0, -1⟩] 0).gaussianAggregator2d =
      (GaussianAggregator2d.init 1 1).Aggregate
        (DataPointCollection.GetDataPoint [⟨0.5, 0.25, 1⟩, ⟨0, 0, -1⟩] 0)) ∧
    (((⟨2, 1, 1, .init 1 1, ⟨[0, 0], 0⟩⟩ :
        SemiSupervisedClassificationStatisticsAggregator).Aggregate
        [⟨0.5, 0.25, 1⟩, ⟨0, 0, -1⟩] 0).histogramAggregator =
      HistogramAggregator.AggregateLabel ⟨[0, 0], 0⟩
        (DataPointCollection.GetIntegerLabel [⟨0.5, 0.25, 1⟩, ⟨0, 0, -1⟩] 0).toNat) ∧
    (((⟨2, 1, 1, .init 1 1, ⟨[0, 0], 0⟩⟩ :
        SemiSupervisedClassificationStatisticsAggregator).Aggregate
        [⟨0.5, 0.25, 1⟩, ⟨0, 0, -1⟩] 1).histogramAggregator = ⟨[0, 0], 0⟩) :=
  ⟨(semiSupervisedAggregator_aggregate_spec _ _ 0 (by norm_num
      [DataPointCollection.Count])).1,
    (semiSupervisedAggregator_aggregate_spec _ _ 0 (by norm_num
      [DataPointCollection.Count])).2.1 (by
        simp [DataPointCollection.GetIntegerLabel,
          DataPointCollection.UnknownClassLabel]),
    (semiSupervisedAggregator_aggregate_spec _ _ 1 (by norm_num
      [DataPointCollection.Count])).2.2 (by
        simp [DataPointCollection.GetIntegerLabel,
          DataPointCollection.UnknownClassLabel])⟩

/-! ### Helper lemmas about histogram bin updates -/

theorem incNth_length (bs : List ℕ) (i : ℕ) :
    (HistogramAggregator.incNth bs i).length = bs.length := by
  induction bs generalizing i with
  | nil => rfl
  | cons b bs ih =>
    cases i with
    | zero => rfl
    | succ i => simp [HistogramAggregator.incNth, ih]

theorem incNth_getD (bs : List ℕ) (i k : ℕ) (hi : i < bs.length) :
    (HistogramAggregator.incNth bs i).getD k 0 =
      bs.getD k 0 + if i = k then 1 else 0 := by
  induction bs generalizing i k with
  | nil => simp at hi
  | cons b bs ih =>
    cases i with
    | zero =>
      cases k with
      | zero => simp [HistogramAggregator.incNth]
      | succ k => simp [HistogramAggregator.incNth]
    | succ i =>
      cases k with
      | zero => simp [HistogramAggregator.incNth]
      | succ k =>
        simp only [HistogramAggregator.incNth, List.getD_cons_succ]
        rw [ih i k (by simpa using hi)]
        simp [Nat.succ_inj]

theorem aggregateLabels_sampleCount (ls : List ℕ) (h : HistogramAggregator) :
    (h.aggregateLabels ls).sampleCount = h.sampleCount + ls.length := by
  induction ls generalizing h with
  | nil => simp [HistogramAggregator.aggregateLabels]
  | cons a tl ih =>
    show ((h.AggregateLabel a).aggregateLabels tl).sampleCount = _
    rw [ih]
    simp [HistogramAggregator.AggregateLabel]
    omega

theorem aggregateLabels_bins_length (ls : List ℕ) (h : HistogramAggregator) :
    (h.aggregateLabels ls).bins.length = h.bins.length := by
  induction ls generalizing h with
  | nil => rfl
  | cons a tl ih =>
    show ((h.AggregateLabel a).aggregateLabels tl).bins.length = _
    rw [ih]
    simp [HistogramAggregator.AggregateLabel, incNth_length]

theorem aggregateLabels_getD (ls : List ℕ) (h : HistogramAggregator) (k : ℕ)
    (hall : ∀ l ∈ ls, l < h.bins.length) :
    (h.aggregateLabels ls).bins.getD k 0 = h.bins.getD k 0 + ls.count k := by
  induction ls generalizing h with
  | nil => simp [HistogramAggregator.aggregateLabels]
  | cons a tl ih =>
    show ((h.AggregateLabel a).aggregateLabels tl).bins.getD k 0 = _
    rw [ih (h.AggregateLabel a) (fun l hl => by
      simpa [HistogramAggregator.AggregateLabel, incNth_length] using
        hall l (List.mem_cons_of_mem a hl))]
    have hbin : (h.AggregateLabel a).bins.getD k 0 =
        h.bins.getD k 0 + if a = k then 1 else 0 := by
      simpa [HistogramAggregator.AggregateLabel] using
        incNth_getD h.bins a k (hall a (List.mem_cons_self a tl))
    rw [hbin, List.count_cons]
    by_cases hak : a = k <;> simp [hak] <;> omega

theorem replicate_getD (n k : ℕ) : (List.replicate n (0 : ℕ)).getD k 0 = 0 := by
  induction n generalizing k with
  | zero => simp
  | succ n ih =>
    cases k with
    | zero => simp [List.replicate]
    | succ k => simpa [List.replicate] using ih k

theorem sum_count_eq_length (K : ℕ) (ls : List ℕ) (h : ∀ l ∈ ls, l < K) :
    (∑ j ∈ Finset.range K, ls.count j) = ls.length := by
  induction ls with
  | nil => simp
  | cons a tl ih =>
    have ha : a < K := h a (List.mem_cons_self a tl)
    have htl : ∀ l ∈ tl, l < K := fun l hl => h l (List.mem_cons_of_mem a hl)
    have hcount : ∀ j, (a :: tl).count j = tl.count j + if j = a then 1 else 0 := by
      intro j
      rw [List.count_cons]
      by_cases hja : j = a
      · simp [hja]
      · simp [hja, Ne.symm hja]
    simp only [hcount, List.length_cons]
    rw [Finset.sum_add_distrib, ih htl,
      Finset.sum_ite_eq' (Finset.range K) a (fun _ => 1)]
    simp [ha]

/-- Claim C8: aggregating labelled samples with per-label counts
`(c₀, …, c_{K-1})` into an empty `HistogramAggregator` with `K` bins gives
`GetProbability(k) = c_k / ∑ c_j` on every bin `k < K` and
`SampleCount() = ∑ c_j`. -/
theorem histogramAggregator_counts_spec (K : ℕ) (labels : List ℕ)
    (hK : K ≤ 4) (hl : ∀ l ∈ labels, l < K) :
    ∃ h0 : HistogramAggregator, HistogramAggregator.create K = some h0 ∧
      (h0.aggregateLabels labels).SampleCount =
        ∑ j ∈ Finset.range K, labels.count j ∧
      ∀ k < K, (h0.aggregateLabels labels).GetProbability k =
        (labels.count k : ℝ) /
          ((∑ j ∈ Finset.range K, labels.count j : ℕ) : ℝ) := by
  refine ⟨⟨List.replicate K 0, 0⟩, ?_, ?_, ?_⟩
  · unfold HistogramAggregator.create
    rw [if_neg (by omega)]
  · rw [HistogramAggregator.SampleCount, aggregateLabels_sampleCount,
      sum_count_eq_length K labels hl]
    simp
  · intro k _
    unfold HistogramAggregator.GetProbability
    rw [aggregateLabels_getD labels _ k (by
      simpa [List.length_replicate] using hl),
      replicate_getD, aggregateLabels_sampleCount,
      sum_count_eq_length K labels hl]
    simp

/-- Witness for C8: two classes, labels `[0, 1, 1]`; the probabilities come
out as `1/3` and `2/3` over a total of three samples. -/
theorem histogramAggregator_counts_spec_witness :
    ∃ h0 : HistogramAggregator, HistogramAggregator.create 2 = some h0 ∧
      (h0.aggregateLabels [0, 1, 1]).SampleCount =
        ∑ j ∈ Finset.range 2, List.count j [0, 1, 1] ∧
      ∀ k < 2, (h0.aggregateLabels [0, 1, 1]).GetProbability k =
        (List.count k [0, 1, 1] : ℝ) /
          ((∑ j ∈ Finset.range 2, List.count j [0, 1, 1] : ℕ) : ℝ) :=
  histogramAggregator_counts_spec 2 [0, 1, 1] (by norm_num) (by decide)

/-! ### Helper lemmas for claim C1 (NaN propagation in the density gain) -/

/-- The IEEE-double pdf fitted to an aggregator holding no samples: every
moment is `0.0/0 = NaN`, and construction succeeds since `NaN < 0.0` is
false. -/
theorem getPdfD_empty (r : GaussianAggregator2d) (h0 : r.sampleCount = 0)
    (h1 : r.sx = 0) (h2 : r.sy = 0) (h3 : r.sxx = 0) (h4 : r.syy = 0)
    (h5 : r.sxy = 0) :
    r.GetPdfD = some ⟨DReal.nan, DReal.nan, DReal.nan, DReal.nan, DReal.nan⟩ := by
  unfold GaussianAggregator2d.GetPdfD
  rw [h0, h1, h2, h3, h4, h5]
  simp [DReal.nan, DReal.div, DReal.mul_nan, DReal.nan_mul, DReal.add_nan,
    DReal.nan_add, DReal.sub_nan, DReal.nan_sub, DReal.div_nan, DReal.nan_div,
    GaussianPdf2dD.make, DReal.lt]

/-- The entropy of the all-NaN pdf is NaN: `NaN ≤ 0.0` is false, and the NaN
determinant propagates through `0.5 * log(c² · det)`. -/
theorem entropyD_nan_pdf :
    GaussianPdf2dD.Entropy ⟨DReal.nan, DReal.nan, DReal.nan, DReal.nan,
      DReal.nan⟩ = DReal.nan := by
  simp [GaussianPdf2dD.Entropy, DReal.nan, DReal.mul_nan, DReal.nan_mul,
    DReal.sub_nan, DReal.nan_sub, DReal.le, DReal.log]

/-- With an empty right child (`0.0/0` moments), the density gain is NaN:
`0 · NaN = NaN` in the weighted mean and the NaN reaches the result. -/
theorem gainD_nan_of_right_empty (p l r : GaussianAggregator2d)
    (pa pl : GaussianPdf2dD) (hA : p.GetPdfD = some pa)
    (hL : l.GetPdfD = some pl) (h0 : r.sampleCount = 0) (h1 : r.sx = 0)
    (h2 : r.sy = 0) (h3 : r.sxx = 0) (h4 : r.syy = 0) (h5 : r.sxy = 0) :
    DensityEstimationTrainingContext.ComputeInformationGain p l r =
      some DReal.nan := by
  unfold DensityEstimationTrainingContext.ComputeInformationGain
  rw [hA, hL, getPdfD_empty r h0 h1 h2 h3 h4 h5]
  dsimp only
  rw [entropyD_nan_pdf]
  simp [DReal.nan, DReal.mul_nan, DReal.add_nan, DReal.nan_div, DReal.sub_nan]

/-- Symmetrically, with an empty left child the density gain is NaN. -/
theorem gainD_nan_of_left_empty (p l r : GaussianAggregator2d)
    (pa pr : GaussianPdf2dD) (hA : p.GetPdfD = some pa)
    (hR : r.GetPdfD = some pr) (h0 : l.sampleCount = 0) (h1 : l.sx = 0)
    (h2 : l.sy = 0) (h3 : l.sxx = 0) (h4 : l.syy = 0) (h5 : l.sxy = 0) :
    DensityEstimationTrainingContext.ComputeInformationGain p l r =
      some DReal.nan := by
  unfold DensityEstimationTrainingContext.ComputeInformationGain
  rw [hA, hR, getPdfD_empty l h0 h1 h2 h3 h4 h5]
  dsimp only
  rw [entropyD_nan_pdf]
  simp [DReal.nan, DReal.mul_nan, DReal.nan_add, DReal.nan_div, DReal.sub_nan]

/-- Claim C1 (amended): the classification gain is the parent entropy minus
the sample-count-weighted mean of the child entropies, with the `n_L+n_R ≤ 1`
guard returning 0.  The density-estimation gain applies the same formula (on
the fitted-pdf entropies, over IEEE doubles) *unconditionally* — it has no
small-count guard — and whenever a child aggregator is empty, which covers
every input with `n_L + n_R ≤ 1`, the empty child's moments are `0.0/0 = NaN`,
the NaN propagates through `0 · NaN` in the weighted mean, and the gain is
NaN rather than 0. -/
theorem computeInformationGain_formula_spec :
    (∀ allS leftS rightS : HistogramAggregator,
      ClassificationTrainingContext.ComputeInformationGain allS leftS rightS =
        if leftS.sampleCount + rightS.sampleCount ≤ 1 then 0
        else allS.Entropy -
          ((leftS.sampleCount : ℝ) * leftS.Entropy +
            (rightS.sampleCount : ℝ) * rightS.Entropy) /
            ((leftS.sampleCount + rightS.sampleCount : ℕ) : ℝ)) ∧
    (∀ (allS leftS rightS : GaussianAggregator2d)
        (pdfAll pdfLeft pdfRight : GaussianPdf2dD),
      allS.GetPdfD = some pdfAll → leftS.GetPdfD = some pdfLeft →
      rightS.GetPdfD = some pdfRight →
      DensityEstimationTrainingContext.ComputeInformationGain allS leftS rightS =
        some (DReal.sub pdfAll.Entropy
          (DReal.div
            (DReal.add
              (DReal.mul (some ((leftS.sampleCount : ℝ) : EReal))
                pdfLeft.Entropy)
              (DReal.mul (some ((rightS.sampleCount : ℝ) : EReal))
                pdfRight.Entropy))
            (some (((leftS.sampleCount + rightS.sampleCount : ℕ) : ℝ) : EReal))))) ∧
    (∀ (allS leftS rightS : GaussianAggregator2d)
        (pdfAll pdfLeft : GaussianPdf2dD),
      allS.GetPdfD = some pdfAll → leftS.GetPdfD = some pdfLeft →
      rightS.sampleCount = 0 → rightS.sx = 0 → rightS.sy = 0 →
      rightS.sxx = 0 → rightS.syy = 0 → rightS.sxy = 0 →
      DensityEstimationTrainingContext.ComputeInformationGain allS leftS rightS =
        some DReal.nan) ∧
    (∀ (allS leftS rightS : GaussianAggregator2d)
        (pdfAll pdfRight : GaussianPdf2dD),
      allS.GetPdfD = some pdfAll → rightS.GetPdfD = some pdfRight →
      leftS.sampleCount = 0 → leftS.sx = 0 → leftS.sy = 0 →
      leftS.sxx = 0 → leftS.syy = 0 → leftS.sxy = 0 →
      DensityEstimationTrainingContext.ComputeInformationGain allS leftS rightS =
        some DReal.nan) := by
  refine ⟨fun allS leftS rightS => rfl, ?_, ?_, ?_⟩
  · intro allS leftS rightS pdfAll pdfLeft pdfRight hA hL hR
    unfold DensityEstimationTrainingContext.ComputeInformationGain
    rw [hA, hL, hR]
  · intro allS leftS rightS pdfAll pdfLeft hA hL h0 h1 h2 h3 h4 h5
    exact gainD_nan_of_right_empty allS leftS rightS pdfAll pdfLeft hA hL
      h0 h1 h2 h3 h4 h5
  · intro allS leftS rightS pdfAll pdfRight hA hR h0 h1 h2 h3 h4 h5
    exact gainD_nan_of_left_empty allS leftS rightS pdfAll pdfRight hA hR
      h0 h1 h2 h3 h4 h5

/-- Witness for C1: three freshly initialised (empty) aggregators; the
density gain is NaN. -/
theorem computeInformationGain_formula_spec_witness :
    DensityEstimationTrainingContext.ComputeInformationGain
      (.init 1 1) (.init 1 1) (.init 1 1) = some DReal.nan :=
  computeInformationGain_formula_spec.2.2.1 (.init 1 1) (.init 1 1) (.init 1 1)
    ⟨DReal.nan, DReal.nan, DReal.nan, DReal.nan, DReal.nan⟩
    ⟨DReal.nan, DReal.nan, DReal.nan, DReal.nan, DReal.nan⟩
    (getPdfD_empty _ rfl rfl rfl rfl rfl rfl)
    (getPdfD_empty _ rfl rfl rfl rfl rfl rfl) rfl rfl rfl rfl rfl rfl

/-- Counterexample for C1 as stated: in the density-estimation context, with
the single sample `(0, 0)` on the left child and none on the right
(`n_L + n_R = 1`), the right child's moments are `0.0/0 = NaN`, the NaN
propagates through `0 · NaN` in the weighted mean, and the returned gain is
NaN — not the claimed 0. -/
theorem computeInformationGain_guard_counterexample :
    ((GaussianAggregator2d.init 1 1).Aggregate (0, 0)).sampleCount +
      (GaussianAggregator2d.init 1 1).sampleCount = 1 ∧
    DensityEstimationTrainingContext.ComputeInformationGain
      ((GaussianAggregator2d.init 1 1).Aggregate (0, 0))
      ((GaussianAggregator2d.init 1 1).Aggregate (0, 0))
      (GaussianAggregator2d.init 1 1) = some DReal.nan ∧
    (some DReal.nan : Option DReal) ≠ some (some ((0 : ℝ) : EReal)) := by
  refine ⟨by simp [GaussianAggregator2d.Aggregate, GaussianAggregator2d.init],
    ?_, by simp [DReal.nan]⟩
  have hstate : (GaussianAggregator2d.init 1 1).Aggregate (0, 0) =
      ⟨1, 0, 0, 0, 0, 0, 1, 1⟩ := by
    norm_num [GaussianAggregator2d.Aggregate, GaussianAggregator2d.init]
  have hpdf : ((GaussianAggregator2d.init 1 1).Aggregate (0, 0)).GetPdfD =
      some ⟨some ((0 : ℝ) : EReal), some ((0 : ℝ) : EReal),
        some ((1 / 2 : ℝ) : EReal), some ((0 : ℝ) : EReal),
        some ((1 / 2 : ℝ) : EReal)⟩ := by
    rw [hstate]
    unfold GaussianAggregator2d.GetPdfD GaussianPdf2dD.make
    simp (disch := norm_num) only [DReal.div_coe, DReal.mul_coe, DReal.add_coe,
      DReal.sub_coe, DReal.lt_coe_zero, Nat.cast_one]
    norm_num
  exact gainD_nan_of_right_empty _ _ _ _ _ hpdf hpdf rfl rfl rfl rfl rfl rfl

/-- Claim C2 (amended): for an aggregator state whose prior-blended covariance
determinant is `≤ 0`, the code distinguishes the two cases: a strictly
negative determinant makes `GetPdf` itself throw (the `GaussianPdf2d`
constructor rejects it), while a zero determinant passes construction and
`Entropy()` then returns `+∞`, so such a candidate can never win. -/
theorem gaussianPdf_degenerate_entropy_spec (g : GaussianAggregator2d)
    (hdet : g.fittedCovarianceDet ≤ 0) :
    (g.fittedCovarianceDet < 0 ∧ g.GetPdf = none) ∨
    (g.fittedCovarianceDet = 0 ∧
      ∃ p : GaussianPdf2d, g.GetPdf = some p ∧ p.Entropy = (⊤ : EReal)) := by
  rcases lt_or_eq_of_le hdet with hlt | heq
  · left
    refine ⟨hlt, ?_⟩
    unfold GaussianAggregator2d.GetPdf GaussianPdf2d.make
    rw [if_pos]
    exact hlt
  · right
    refine ⟨heq, ⟨g.fittedMeanX, g.fittedMeanY, g.fittedSigma11,
      g.fittedSigma12, g.fittedSigma22⟩, ?_, ?_⟩
    · unfold GaussianAggregator2d.GetPdf GaussianPdf2d.make
      rw [if_neg]
      show ¬g.fittedCovarianceDet < 0
      rw [← heq]
      exact lt_irrefl _
    · unfold GaussianPdf2d.Entropy
      rw [if_pos]
      show g.fittedCovarianceDet ≤ 0
      exact le_of_eq heq

/-- Witness for C2: the raw aggregator state `n = 1`, `Σx = Σy = 0`,
`Σxx = -10`, `Σyy = 1`, `Σxy = 0`, `a = b = 1` has blended determinant
`-4.5 ≤ 0`, and the theorem's dichotomy applies to it. -/
theorem gaussianPdf_degenerate_entropy_spec_witness :
    ((⟨1, 0, 0, -10, 1, 0, 1, 1⟩ :
        GaussianAggregator2d).fittedCovarianceDet < 0 ∧
      (⟨1, 0, 0, -10, 1, 0, 1, 1⟩ : GaussianAggregator2d).GetPdf = none) ∨
    ((⟨1, 0, 0, -10, 1, 0, 1, 1⟩ :
        GaussianAggregator2d).fittedCovarianceDet = 0 ∧
      ∃ p : GaussianPdf2d,
        (⟨1, 0, 0, -10, 1, 0, 1, 1⟩ : GaussianAggregator2d).GetPdf = some p ∧
        p.Entropy = (⊤ : EReal)) :=
  gaussianPdf_degenerate_entropy_spec _ (by
    norm_num [GaussianAggregator2d.fittedCovarianceDet,
      GaussianAggregator2d.fittedSigma11, GaussianAggregator2d.fittedSigma12,
      GaussianAggregator2d.fittedSigma22, GaussianAggregator2d.alpha,
      GaussianAggregator2d.mlVxx, GaussianAggregator2d.mlVyy,
      GaussianAggregator2d.mlVxy])

/-- Counterexample for C2 as stated: the aggregator state `n = 1`,
`Σx = Σy = 0`, `Σxx = -10`, `Σyy = 1`, `Σxy = 0`, `a = b = 1` has blended
covariance determinant `-4.5 ≤ 0`, yet `GetPdf()` *throws* (the
`GaussianPdf2d` constructor rejects `det < 0`), so `GetPdf().Entropy()`
fails rather than returning `+∞`. -/
theorem gaussianPdf_degenerate_entropy_counterexample :
    (⟨1, 0, 0, -10, 1, 0, 1, 1⟩ :
      GaussianAggregator2d).fittedCovarianceDet ≤ 0 ∧
    (⟨1, 0, 0, -10, 1, 0, 1, 1⟩ : GaussianAggregator2d).GetPdf = none := by
  constructor
  · norm_num [GaussianAggregator2d.fittedCovarianceDet,
      GaussianAggregator2d.fittedSigma11, GaussianAggregator2d.fittedSigma12,
      GaussianAggregator2d.fittedSigma22, GaussianAggregator2d.alpha,
      GaussianAggregator2d.mlVxx, GaussianAggregator2d.mlVyy,
      GaussianAggregator2d.mlVxy]
  · norm_num [GaussianAggregator2d.GetPdf, GaussianPdf2d.make,
      GaussianAggregator2d.fittedMeanX, GaussianAggregator2d.fittedMeanY,
      GaussianAggregator2d.fittedSigma11, GaussianAggregator2d.fittedSigma12,
      GaussianAggregator2d.fittedSigma22, GaussianAggregator2d.alpha,
      GaussianAggregator2d.mlVxx, GaussianAggregator2d.mlVyy,
      GaussianAggregator2d.mlVxy]

/-- After one and two aggregations of the same sample `(x, y)`, the fitted
pdf exists and its variances are `(1 - k/(k+a))·b` for `k = 1, 2`
(the maximum-likelihood variance of identical samples is exactly zero). -/
theorem getPdf_single_and_double_sample (A B x y : ℝ) (hA : 0 < A) (hB : 1 ≤ B) :
    ∃ p1 p2 : GaussianPdf2d,
      (⟨1, x, y, x ^ 2, y ^ 2, x * y, A, B⟩ : GaussianAggregator2d).GetPdf =
        some p1 ∧
      (⟨2, x + x, y + y, x ^ 2 + x ^ 2, y ^ 2 + y ^ 2, x * y + x * y, A, B⟩ :
        GaussianAggregator2d).GetPdf = some p2 ∧
      p1.VarianceX = (1 - 1 / (1 + A)) * B ∧
      p1.VarianceY = (1 - 1 / (1 + A)) * B ∧
      p2.VarianceX = (1 - 2 / (2 + A)) * B ∧
      p2.VarianceY = (1 - 2 / (2 + A)) * B := by
  have h1A : (0 : ℝ) < 1 + A := by linarith
  have h2A : (0 : ℝ) < 2 + A := by linarith
  have hB0 : (0 : ℝ) < B := by linarith
  have hpos1 : (0 : ℝ) < (1 - 1 / (1 + A)) * B := by
    have : 1 / (1 + A) < 1 := by
      rw [div_lt_one h1A]
      linarith
    have h0 : (0 : ℝ) < 1 - 1 / (1 + A) := by linarith
    exact mul_pos h0 hB0
  have hpos2 : (0 : ℝ) < (1 - 2 / (2 + A)) * B := by
    have : 2 / (2 + A) < 1 := by
      rw [div_lt_one h2A]
      linarith
    have h0 : (0 : ℝ) < 1 - 2 / (2 + A) := by linarith
    exact mul_pos h0 hB0
  have e11 : (⟨1, x, y, x ^ 2, y ^ 2, x * y, A, B⟩ :
      GaussianAggregator2d).fittedSigma11 = (1 - 1 / (1 + A)) * B := by
    unfold GaussianAggregator2d.fittedSigma11 GaussianAggregator2d.alpha
      GaussianAggregator2d.mlVxx
    push_cast
    ring
  have e22 : (⟨1, x, y, x ^ 2, y ^ 2, x * y, A, B⟩ :
      GaussianAggregator2d).fittedSigma22 = (1 - 1 / (1 + A)) * B := by
    unfold GaussianAggregator2d.fittedSigma22 GaussianAggregator2d.alpha
      GaussianAggregator2d.mlVyy
    push_cast
    ring
  have e12 : (⟨1, x, y, x ^ 2, y ^ 2, x * y, A, B⟩ :
      GaussianAggregator2d).fittedSigma12 = 0 := by
    unfold GaussianAggregator2d.fittedSigma12 GaussianAggregator2d.alpha
      GaussianAggregator2d.mlVxy
    push_cast
    ring
  have f11 : (⟨2, x + x, y + y, x ^ 2 + x ^ 2, y ^ 2 + y ^ 2, x * y + x * y, A, B⟩ :
      GaussianAggregator2d).fittedSigma11 = (1 - 2 / (2 + A)) * B := by
    unfold GaussianAggregator2d.fittedSigma11 GaussianAggregator2d.alpha
      GaussianAggregator2d.mlVxx
    push_cast
    ring
  have f22 : (⟨2, x + x, y + y, x ^ 2 + x ^ 2, y ^ 2 + y ^ 2, x * y + x * y, A, B⟩ :
      GaussianAggregator2d).fittedSigma22 = (1 - 2 / (2 + A)) * B := by
    unfold GaussianAggregator2d.fittedSigma22 GaussianAggregator2d.alpha
      GaussianAggregator2d.mlVyy
    push_cast
    ring
  have f12 : (⟨2, x + x, y + y, x ^ 2 + x ^ 2, y ^ 2 + y ^ 2, x * y + x * y, A, B⟩ :
      GaussianAggregator2d).fittedSigma12 = 0 := by
    unfold GaussianAggregator2d.fittedSigma12 GaussianAggregator2d.alpha
      GaussianAggregator2d.mlVxy
    push_cast
    ring
  refine ⟨⟨(⟨1, x, y, x ^ 2, y ^ 2, x * y, A, B⟩ :
        GaussianAggregator2d).fittedMeanX,
      (⟨1, x, y, x ^ 2, y ^ 2, x * y, A, B⟩ :
        GaussianAggregator2d).fittedMeanY,
      (1 - 1 / (1 + A)) * B, 0, (1 - 1 / (1 + A)) * B⟩,
    ⟨(⟨2, x + x, y + y, x ^ 2 + x ^ 2, y ^ 2 + y ^ 2, x * y + x * y, A, B⟩ :
        GaussianAggregator2d).fittedMeanX,
      (⟨2, x + x, y + y, x ^ 2 + x ^ 2, y ^ 2 + y ^ 2, x * y + x * y, A, B⟩ :
        GaussianAggregator2d).fittedMeanY,
      (1 - 2 / (2 + A)) * B, 0, (1 - 2 / (2 + A)) * B⟩, ?_, ?_, rfl, rfl, rfl, rfl⟩
  · unfold GaussianAggregator2d.GetPdf GaussianPdf2d.make
    rw [e11, e12, e22, if_neg (by nlinarith)]
  · unfold GaussianAggregator2d.GetPdf GaussianPdf2d.make
    rw [f11, f12, f22, if_neg (by nlinarith)]

/-- Claim C9: aggregating the same sample twice (instead of once) into a
`GaussianAggregator2d` with hyperparameter `a > 0` doubles `SampleCount()`,
and both variances of the fitted pdf after two aggregations are `≤` the
corresponding variances after one. -/
theorem gaussianAggregator_double_aggregate_spec (a b x y : ℝ) (ha : 0 < a) :
    (((GaussianAggregator2d.init a b).Aggregate (x, y)).Aggregate
      (x, y)).SampleCount =
      2 * ((GaussianAggregator2d.init a b).Aggregate (x, y)).SampleCount ∧
    ∃ p1 p2 : GaussianPdf2d,
      ((GaussianAggregator2d.init a b).Aggregate (x, y)).GetPdf = some p1 ∧
      (((GaussianAggregator2d.init a b).Aggregate (x, y)).Aggregate
        (x, y)).GetPdf = some p2 ∧
      p2.VarianceX ≤ p1.VarianceX ∧ p2.VarianceY ≤ p1.VarianceY := by
  have haA : 0 < (GaussianAggregator2d.init a b).a := by
    by_cases hc : a < 0.001
    · simp only [GaussianAggregator2d.init]
      rw [if_pos hc]
      norm_num
    · push_neg at hc
      simp only [GaussianAggregator2d.init, if_neg (not_lt.2 hc)]
      linarith
  have hbB : 1 ≤ (GaussianAggregator2d.init a b).b := by
    by_cases hc : b < 1
    · simp only [GaussianAggregator2d.init]
      rw [if_pos hc]
    · push_neg at hc
      simp only [GaussianAggregator2d.init, if_neg (not_lt.2 hc)]
      exact hc
  have hg1 : (GaussianAggregator2d.init a b).Aggregate (x, y) =
      ⟨1, x, y, x ^ 2, y ^ 2, x * y, (GaussianAggregator2d.init a b).a,
        (GaussianAggregator2d.init a b).b⟩ := by
    simp [GaussianAggregator2d.Aggregate, GaussianAggregator2d.init]
  have hg2 : ((GaussianAggregator2d.init a b).Aggregate (x, y)).Aggregate (x, y) =
      ⟨2, x + x, y + y, x ^ 2 + x ^ 2, y ^ 2 + y ^ 2, x * y + x * y,
        (GaussianAggregator2d.init a b).a, (GaussianAggregator2d.init a b).b⟩ := by
    rw [hg1]
    simp [GaussianAggregator2d.Aggregate]
  constructor
  · rw [hg2, hg1]
    norm_num [GaussianAggregator2d.SampleCount]
  · obtain ⟨p1, p2, hp1, hp2, v1x, v1y, v2x, v2y⟩ :=
      getPdf_single_and_double_sample (GaussianAggregator2d.init a b).a
        (GaussianAggregator2d.init a b).b x y haA hbB
    refine ⟨p1, p2, ?_, ?_, ?_, ?_⟩
    · rw [hg1]
      exact hp1
    · rw [hg2]
      exact hp2
    · rw [v1x, v2x]
      have h1A : (0 : ℝ) < 1 + (GaussianAggregator2d.init a b).a := by linarith
      have h2A : (0 : ℝ) < 2 + (GaussianAggregator2d.init a b).a := by linarith
      have hdiv : 1 / (1 + (GaussianAggregator2d.init a b).a) ≤
          2 / (2 + (GaussianAggregator2d.init a b).a) := by
        rw [div_le_div_iff h1A h2A]
        linarith
      have hB0 : (0 : ℝ) ≤ (GaussianAggregator2d.init a b).b := by linarith
      apply mul_le_mul_of_nonneg_right _ hB0
      linarith
    · rw [v1y, v2y]
      have h1A : (0 : ℝ) < 1 + (GaussianAggregator2d.init a b).a := by linarith
      have h2A : (0 : ℝ) < 2 + (GaussianAggregator2d.init a b).a := by linarith
      have hdiv : 1 / (1 + (GaussianAggregator2d.init a b).a) ≤
          2 / (2 + (GaussianAggregator2d.init a b).a) := by
        rw [div_le_div_iff h1A h2A]
        linarith
      have hB0 : (0 : ℝ) ≤ (GaussianAggregator2d.init a b).b := by linarith
      apply mul_le_mul_of_nonneg_right _ hB0
      linarith

/-- Witness for C9: hyperparameters `a = b = 1` and the sample `(3, 4)`. -/
theorem gaussianAggregator_double_aggregate_spec_witness :
    (((GaussianAggregator2d.init 1 1).Aggregate (3, 4)).Aggregate
      (3, 4)).SampleCount =
      2 * ((GaussianAggregator2d.init 1 1).Aggregate (3, 4)).SampleCount ∧
    ∃ p1 p2 : GaussianPdf2d,
      ((GaussianAggregator2d.init 1 1).Aggregate (3, 4)).GetPdf = some p1 ∧
      (((GaussianAggregator2d.init 1 1).Aggregate (3, 4)).Aggregate
        (3, 4)).GetPdf = some p2 ∧
      p2.VarianceX ≤ p1.VarianceX ∧ p2.VarianceY ≤ p1.VarianceY :=
  gaussianAggregator_double_aggregate_spec 1 1 3 4 (by norm_num)

/-! ### Specification-side maximum-likelihood statistics (for claim C4).
These follow the specification's words — "the maximum-likelihood covariance
of the aggregated samples" — and are compared with the sums the source
aggregator keeps. -/

noncomputable section

/-- Specification-side: the maximum-likelihood mean x-coordinate `Σx/n`. -/
def sampleMeanX (pts : List (ℝ × ℝ)) : ℝ :=
  (pts.map Prod.fst).sum / (pts.length : ℝ)

/-- Specification-side: the maximum-likelihood mean y-coordinate `Σy/n`. -/
def sampleMeanY (pts : List (ℝ × ℝ)) : ℝ :=
  (pts.map Prod.snd).sum / (pts.length : ℝ)

/-- Specification-side: the maximum-likelihood variance
`(1/n)·Σ(xᵢ - x̄)²` of the samples' x-coordinates. -/
def mlCovXX (pts : List (ℝ × ℝ)) : ℝ :=
  (pts.map fun p => (p.1 - sampleMeanX pts) ^ 2).sum / (pts.length : ℝ)

/-- Specification-side: the maximum-likelihood variance
`(1/n)·Σ(yᵢ - ȳ)²` of the samples' y-coordinates. -/
def mlCovYY (pts : List (ℝ × ℝ)) : ℝ :=
  (pts.map fun p => (p.2 - sampleMeanY pts) ^ 2).sum / (pts.length : ℝ)

/-- Specification-side: the maximum-likelihood covariance
`(1/n)·Σ(xᵢ - x̄)(yᵢ - ȳ)` of the samples. -/
def mlCovXY (pts : List (ℝ × ℝ)) : ℝ :=
  (pts.map fun p => (p.1 - sampleMeanX pts) * (p.2 - sampleMeanY pts)).sum /
    (pts.length : ℝ)

end

/-! ### Helper lemmas for claim C4 -/

theorem aggregateList_fields (pts : List (ℝ × ℝ)) (g : GaussianAggregator2d) :
    (g.aggregateList pts).sampleCount = g.sampleCount + pts.length ∧
    (g.aggregateList pts).sx = g.sx + (pts.map Prod.fst).sum ∧
    (g.aggregateList pts).sy = g.sy + (pts.map Prod.snd).sum ∧
    (g.aggregateList pts).sxx = g.sxx + (pts.map fun p => p.1 ^ 2).sum ∧
    (g.aggregateList pts).syy = g.syy + (pts.map fun p => p.2 ^ 2).sum ∧
    (g.aggregateList pts).sxy = g.sxy + (pts.map fun p => p.1 * p.2).sum ∧
    (g.aggregateList pts).a = g.a ∧ (g.aggregateList pts).b = g.b := by
  induction pts generalizing g with
  | nil => simp [GaussianAggregator2d.aggregateList]
  | cons p tl ih =>
    have hfold : g.aggregateList (p :: tl) = (g.Aggregate p).aggregateList tl := rfl
    rw [hfold]
    obtain ⟨h1, h2, h3, h4, h5, h6, h7, h8⟩ := ih (g.Aggregate p)
    refine ⟨?_, ?_, ?_, ?_, ?_, ?_, ?_, ?_⟩
    · rw [h1]
      simp [GaussianAggregator2d.Aggregate]
      omega
    · rw [h2]
      simp [GaussianAggregator2d.Aggregate]
      ring
    · rw [h3]
      simp [GaussianAggregator2d.Aggregate]
      ring
    · rw [h4]
      simp [GaussianAggregator2d.Aggregate]
      ring
    · rw [h5]
      simp [GaussianAggregator2d.Aggregate]
      ring
    · rw [h6]
      simp [GaussianAggregator2d.Aggregate]
      ring
    · rw [h7]
      rfl
    · rw [h8]
      rfl

theorem sum_sq_sub_fst (pts : List (ℝ × ℝ)) (c : ℝ) :
    (pts.map fun p => (p.1 - c) ^ 2).sum =
      (pts.map fun p => p.1 ^ 2).sum - 2 * c * (pts.map Prod.fst).sum +
        (pts.length : ℝ) * c ^ 2 := by
  induction pts with
  | nil => simp
  | cons p tl ih =>
    simp only [List.map_cons, List.sum_cons, List.length_cons, ih]
    push_cast
    ring

theorem sum_sq_sub_snd (pts : List (ℝ × ℝ)) (c : ℝ) :
    (pts.map fun p => (p.2 - c) ^ 2).sum =
      (pts.map fun p => p.2 ^ 2).sum - 2 * c * (pts.map Prod.snd).sum +
        (pts.length : ℝ) * c ^ 2 := by
  induction pts with
  | nil => simp
  | cons p tl ih =>
    simp only [List.map_cons, List.sum_cons, List.length_cons, ih]
    push_cast
    ring

theorem sum_mul_sub (pts : List (ℝ × ℝ)) (cx cy : ℝ) :
    (pts.map fun p => (p.1 - cx) * (p.2 - cy)).sum =
      (pts.map fun p => p.1 * p.2).sum - cx * (pts.map Prod.snd).sum -
        cy * (pts.map Prod.fst).sum + (pts.length : ℝ) * (cx * cy) := by
  induction pts with
  | nil => simp
  | cons p tl ih =>
    simp only [List.map_cons, List.sum_cons, List.length_cons, ih]
    push_cast
    ring

/-- Cauchy–Schwarz for sums over a list: the sums of squares are nonnegative
and the squared sum of products is at most their product. -/
theorem list_cauchy_schwarz (pts : List (ℝ × ℝ)) (f h : ℝ × ℝ → ℝ) :
    0 ≤ (pts.map fun p => f p ^ 2).sum ∧ 0 ≤ (pts.map fun p => h p ^ 2).sum ∧
      ((pts.map fun p => f p * h p).sum) ^ 2 ≤
        (pts.map fun p => f p ^ 2).sum * (pts.map fun p => h p ^ 2).sum := by
  induction pts with
  | nil => norm_num
  | cons p tl ih =>
    obtain ⟨hA, hB, hS⟩ := ih
    simp only [List.map_cons, List.sum_cons]
    refine ⟨by nlinarith [sq_nonneg (f p)], by nlinarith [sq_nonneg (h p)], ?_⟩
    rcases eq_or_lt_of_le hB with hB0 | hBpos
    · have hS0 : (tl.map fun p => f p * h p).sum = 0 := by
        nlinarith [sq_nonneg ((tl.map fun p => f p * h p).sum)]
      rw [hS0, ← hB0]
      nlinarith [mul_nonneg hA (sq_nonneg (h p)), sq_nonneg (f p * h p)]
    · nlinarith [sq_nonneg (f p * (tl.map fun p => h p ^ 2).sum -
          h p * (tl.map fun p => f p * h p).sum),
        mul_nonneg (sq_nonneg (h p)) (sub_nonneg.2 hS),
        mul_nonneg hBpos.le (sub_nonneg.2 hS)]

/-- The prior-blended covariance determinant is nonnegative whenever the
maximum-likelihood covariance matrix is positive semidefinite, the blending
weight lies in `[0, 1]` and the prior variance is nonnegative. -/
theorem blended_det_nonneg (al B u v w : ℝ) (h0 : 0 ≤ al) (h1 : 0 ≤ 1 - al)
    (hB : 0 ≤ B) (hu : 0 ≤ u) (hv : 0 ≤ v) (hw : w ^ 2 ≤ u * v) :
    0 ≤ (al * u + (1 - al) * B) * (al * v + (1 - al) * B) -
      (al * w) * (al * w) := by
  nlinarith [mul_nonneg (sq_nonneg al) (sub_nonneg.2 hw),
    mul_nonneg (mul_nonneg (mul_nonneg h0 h1) hB) hu,
    mul_nonneg (mul_nonneg (mul_nonneg h0 h1) hB) hv,
    sq_nonneg ((1 - al) * B)]

/-- Claim C4: for any hyperparameters `(a, b)` (clamped at construction to
`a ≥ 0.001`, `b ≥ 1`) and at least one aggregated sample, `GetPdf` returns a
pdf whose mean is the sample mean and whose covariance entries blend the
maximum-likelihood covariance of the samples with the prior via
`α = n/(n+a)`: `vxx = α·ML_xx + (1-α)·b`, `vyy = α·ML_yy + (1-α)·b`,
`vxy = α·ML_xy`. -/
theorem gaussianAggregator_getPdf_spec (a b : ℝ) (pts : List (ℝ × ℝ))
    (hne : pts ≠ []) :
    ∃ pdf : GaussianPdf2d,
      ((GaussianAggregator2d.init a b).aggregateList pts).GetPdf = some pdf ∧
      pdf.MeanX = sampleMeanX pts ∧
      pdf.MeanY = sampleMeanY pts ∧
      pdf.VarianceX =
        ((pts.length : ℝ) / ((pts.length : ℝ) + if a < 0.001 then 0.001 else a)) *
            mlCovXX pts +
          (1 - (pts.length : ℝ) /
            ((pts.length : ℝ) + if a < 0.001 then 0.001 else a)) *
            (if b < 1 then 1 else b) ∧
      pdf.VarianceY =
        ((pts.length : ℝ) / ((pts.length : ℝ) + if a < 0.001 then 0.001 else a)) *
            mlCovYY pts +
          (1 - (pts.length : ℝ) /
            ((pts.length : ℝ) + if a < 0.001 then 0.001 else a)) *
            (if b < 1 then 1 else b) ∧
      pdf.CovarianceXY =
        ((pts.length : ℝ) / ((pts.length : ℝ) + if a < 0.001 then 0.001 else a)) *
          mlCovXY pts := by
  obtain ⟨hc, hsx, hsy, hsxx, hsyy, hsxy, ha', hb'⟩ :=
    aggregateList_fields pts (GaussianAggregator2d.init a b)
  simp only [show (GaussianAggregator2d.init a b).sampleCount = 0 from rfl,
    show (GaussianAggregator2d.init a b).sx = 0 from rfl,
    show (GaussianAggregator2d.init a b).sy = 0 from rfl,
    show (GaussianAggregator2d.init a b).sxx = 0 from rfl,
    show (GaussianAggregator2d.init a b).syy = 0 from rfl,
    show (GaussianAggregator2d.init a b).sxy = 0 from rfl,
    zero_add, Nat.zero_add] at hc hsx hsy hsxx hsyy hsxy
  rw [show (GaussianAggregator2d.init a b).a =
    (if a < 0.001 then 0.001 else a) from rfl] at ha'
  rw [show (GaussianAggregator2d.init a b).b =
    (if b < 1 then 1 else b) from rfl] at hb'
  set g := (GaussianAggregator2d.init a b).aggregateList pts with hgdef
  have hn0 : pts.length ≠ 0 := fun h => hne (List.length_eq_zero.mp h)
  have hnR : (0 : ℝ) < (pts.length : ℝ) := by
    exact_mod_cast Nat.pos_of_ne_zero hn0
  have hnne : (pts.length : ℝ) ≠ 0 := ne_of_gt hnR
  have haeff : (0 : ℝ) < (if a < 0.001 then 0.001 else a) := by
    by_cases hca : a < 0.001
    · rw [if_pos hca]
      norm_num
    · rw [if_neg hca]
      push_neg at hca
      linarith
  have hbeff : (1 : ℝ) ≤ (if b < 1 then 1 else b) := by
    by_cases hcb : b < 1
    · rw [if_pos hcb]
    · rw [if_neg hcb]
      push_neg at hcb
      exact hcb
  have hmx : g.fittedMeanX = sampleMeanX pts := by
    unfold GaussianAggregator2d.fittedMeanX sampleMeanX
    rw [hsx, hc]
  have hmy : g.fittedMeanY = sampleMeanY pts := by
    unfold GaussianAggregator2d.fittedMeanY sampleMeanY
    rw [hsy, hc]
  have halpha : g.alpha =
      (pts.length : ℝ) / ((pts.length : ℝ) + if a < 0.001 then 0.001 else a) := by
    unfold GaussianAggregator2d.alpha
    rw [hc, ha']
  have hmlxx : g.mlVxx = mlCovXX pts := by
    unfold GaussianAggregator2d.mlVxx mlCovXX
    rw [hsxx, hsx, hc, sum_sq_sub_fst pts (sampleMeanX pts)]
    unfold sampleMeanX
    field_simp
    ring
  have hmlyy : g.mlVyy = mlCovYY pts := by
    unfold GaussianAggregator2d.mlVyy mlCovYY
    rw [hsyy, hsy, hc, sum_sq_sub_snd pts (sampleMeanY pts)]
    unfold sampleMeanY
    field_simp
    ring
  have hmlxy : g.mlVxy = mlCovXY pts := by
    unfold GaussianAggregator2d.mlVxy mlCovXY
    rw [hsxy, hsx, hsy, hc, sum_mul_sub pts (sampleMeanX pts) (sampleMeanY pts)]
    unfold sampleMeanX sampleMeanY
    field_simp
    ring
  obtain ⟨hcx2, hcy2, hcs⟩ := list_cauchy_schwarz pts
    (fun p => p.1 - sampleMeanX pts) (fun p => p.2 - sampleMeanY pts)
  have hu : 0 ≤ mlCovXX pts := div_nonneg hcx2 hnR.le
  have hv : 0 ≤ mlCovYY pts := div_nonneg hcy2 hnR.le
  have hcs' : mlCovXY pts ^ 2 ≤ mlCovXX pts * mlCovYY pts := by
    unfold mlCovXX mlCovYY mlCovXY
    rw [div_pow, div_mul_div_comm, div_le_div_iff (by positivity) (by positivity)]
    nlinarith [hcs, hnR]
  have halpha0 : 0 ≤ g.alpha := by
    rw [halpha]
    positivity
  have halpha1 : 0 ≤ 1 - g.alpha := by
    rw [halpha, sub_nonneg, div_le_one (by linarith)]
    linarith
  have hgb : (0 : ℝ) ≤ g.b := by
    rw [hb']
    linarith
  have hdet : 0 ≤ g.fittedCovarianceDet := by
    unfold GaussianAggregator2d.fittedCovarianceDet GaussianAggregator2d.fittedSigma11
      GaussianAggregator2d.fittedSigma12 GaussianAggregator2d.fittedSigma22
    rw [hmlxx, hmlyy, hmlxy]
    exact blended_det_nonneg g.alpha g.b (mlCovXX pts) (mlCovYY pts)
      (mlCovXY pts) halpha0 halpha1 hgb hu hv hcs'
  refine ⟨⟨g.fittedMeanX, g.fittedMeanY, g.fittedSigma11, g.fittedSigma12,
    g.fittedSigma22⟩, ?_, hmx, hmy, ?_, ?_, ?_⟩
  · unfold GaussianAggregator2d.GetPdf GaussianPdf2d.make
    rw [if_neg (show ¬(g.fittedSigma11 * g.fittedSigma22 -
      g.fittedSigma12 * g.fittedSigma12 < 0) from not_lt.2 hdet)]
  · show g.fittedSigma11 = _
    unfold GaussianAggregator2d.fittedSigma11
    rw [hmlxx, halpha, hb']
  · show g.fittedSigma22 = _
    unfold GaussianAggregator2d.fittedSigma22
    rw [hmlyy, halpha, hb']
  · show g.fittedSigma12 = _
    unfold GaussianAggregator2d.fittedSigma12
    rw [hmlxy, halpha]

/-- Witness for C4: hyperparameters `a = b = 1` and the two samples
`(0,0)`, `(2,0)`. -/
theorem gaussianAggregator_getPdf_spec_witness :
    ∃ pdf : GaussianPdf2d,
      ((GaussianAggregator2d.init 1 1).aggregateList [(0, 0), (2, 0)]).GetPdf =
        some pdf ∧
      pdf.MeanX = sampleMeanX [(0, 0), (2, 0)] ∧
      pdf.MeanY = sampleMeanY [(0, 0), (2, 0)] ∧
      pdf.VarianceX =
        (((List.length [((0 : ℝ), (0 : ℝ)), (2, 0)] : ℕ) : ℝ) /
            (((List.length [((0 : ℝ), (0 : ℝ)), (2, 0)] : ℕ) : ℝ) +
              if (1 : ℝ) < 0.001 then 0.001 else 1)) *
            mlCovXX [(0, 0), (2, 0)] +
          (1 - ((List.length [((0 : ℝ), (0 : ℝ)), (2, 0)] : ℕ) : ℝ) /
            (((List.length [((0 : ℝ), (0 : ℝ)), (2, 0)] : ℕ) : ℝ) +
              if (1 : ℝ) < 0.001 then 0.001 else 1)) *
            (if (1 : ℝ) < 1 then 1 else 1) ∧
      pdf.VarianceY =
        (((List.length [((0 : ℝ), (0 : ℝ)), (2, 0)] : ℕ) : ℝ) /
            (((List.length [((0 : ℝ), (0 : ℝ)), (2, 0)] : ℕ) : ℝ) +
              if (1 : ℝ) < 0.001 then 0.001 else 1)) *
            mlCovYY [(0, 0), (2, 0)] +
          (1 - ((List.length [((0 : ℝ), (0 : ℝ)), (2, 0)] : ℕ) : ℝ) /
            (((List.length [((0 : ℝ), (0 : ℝ)), (2, 0)] : ℕ) : ℝ) +
              if (1 : ℝ) < 0.001 then 0.001 else 1)) *
            (if (1 : ℝ) < 1 then 1 else 1) ∧
      pdf.CovarianceXY =
        (((List.length [((0 : ℝ), (0 : ℝ)), (2, 0)] : ℕ) : ℝ) /
            (((List.length [((0 : ℝ), (0 : ℝ)), (2, 0)] : ℕ) : ℝ) +
              if (1 : ℝ) < 0.001 then 0.001 else 1)) *
          mlCovXY [(0, 0), (2, 0)] :=
  gaussianAggregator_getPdf_spec 1 1 [(0, 0), (2, 0)] (by simp)

/-- Claim C3: `Forest::Deserialize` throws for every stream whose leading
bytes differ from the ASCII header
`MicrosoftResearch.Cambridge.Sherwood.Forest`, throws for every stream whose
`(major, minor)` version pair is not `(0, 0)`, and only when header and
version match does it read the `int32` tree count and then that many tree
records. -/
theorem forest_deserialize_spec (readTree : List ℕ → Option (List ℕ))
    (s : List ℕ) :
    (s.take Forest.binaryFileHeader.length ≠ Forest.binaryFileHeader →
      Forest.Deserialize readTree s = .error "Unsupported forest format.") ∧
    (∀ mj mn rest : List ℕ, mj.length = 4 → mn.length = 4 →
      s = Forest.binaryFileHeader ++ (mj ++ (mn ++ rest)) →
      ¬(Forest.toInt32 (Forest.decodeUInt32LE mj) = 0 ∧
        Forest.toInt32 (Forest.decodeUInt32LE mn) = 0) →
      Forest.Deserialize readTree s = .error "Unsupported file version number.") ∧
    (∀ tcb rest : List ℕ, tcb.length = 4 →
      s = Forest.binaryFileHeader ++
        (List.replicate 4 0 ++ (List.replicate 4 0 ++ (tcb ++ rest))) →
      Forest.Deserialize readTree s =
        match Forest.readTrees readTree
            (Forest.toInt32 (Forest.decodeUInt32LE tcb)).toNat rest with
        | none => .error "Corrupt stream."
        | some r =>
          .ok ((Forest.toInt32 (Forest.decodeUInt32LE tcb)).toNat, r)) := by
  refine ⟨fun hhdr => ?_, fun mj mn rest hmj hmn hs hver => ?_,
    fun tcb rest htcb hs => ?_⟩
  · unfold Forest.Deserialize
    rw [if_pos hhdr]
  · subst hs
    have hrb1 : Forest.readBytes 4 (mj ++ (mn ++ rest)) = some (mj, mn ++ rest) := by
      unfold Forest.readBytes
      rw [if_pos (by rw [List.length_append, hmj]; omega),
        List.take_left' hmj, List.drop_left' hmj]
    have hrb2 : Forest.readBytes 4 (mn ++ rest) = some (mn, rest) := by
      unfold Forest.readBytes
      rw [if_pos (by rw [List.length_append, hmn]; omega),
        List.take_left' hmn, List.drop_left' hmn]
    unfold Forest.Deserialize
    simp only [List.take_left, List.drop_left, ne_eq, not_true_eq_false,
      if_false, ite_not, if_true]
    rw [hrb1]
    dsimp only
    rw [hrb2]
    dsimp only
    rw [if_neg hver]
  · subst hs
    have hz : List.length (List.replicate 4 (0 : ℕ)) = 4 := by simp
    have hrb1 : Forest.readBytes 4
        (List.replicate 4 (0 : ℕ) ++ (List.replicate 4 0 ++ (tcb ++ rest))) =
        some (List.replicate 4 0, List.replicate 4 0 ++ (tcb ++ rest)) := by
      unfold Forest.readBytes
      rw [if_pos (by rw [List.length_append, hz]; omega),
        List.take_left' hz, List.drop_left' hz]
    have hrb2 : Forest.readBytes 4
        (List.replicate 4 (0 : ℕ) ++ (tcb ++ rest)) =
        some (List.replicate 4 0, tcb ++ rest) := by
      unfold Forest.readBytes
      rw [if_pos (by rw [List.length_append, hz]; omega),
        List.take_left' hz, List.drop_left' hz]
    have hrb3 : Forest.readBytes 4 (tcb ++ rest) = some (tcb, rest) := by
      unfold Forest.readBytes
      rw [if_pos (by rw [List.length_append, htcb]; omega),
        List.take_left' htcb, List.drop_left' htcb]
    unfold Forest.Deserialize
    simp only [List.take_left, List.drop_left, ne_eq, not_true_eq_false,
      if_false, ite_not, if_true]
    rw [hrb1]
    dsimp only
    rw [hrb2]
    dsimp only
    rw [if_pos ⟨by decide, by decide⟩]
    rw [hrb3]

/-- Witness for C3: a stream made of the header, version `(0, 0)` and tree
count 2, handed to a tree reader that consumes nothing, reaches the
tree-reading loop. -/
theorem forest_deserialize_spec_witness :
    Forest.Deserialize (fun s => some s)
      (Forest.binaryFileHeader ++
        (List.replicate 4 0 ++ (List.replicate 4 0 ++ ([2, 0, 0, 0] ++ [])))) =
      match Forest.readTrees (fun s => some s)
          (Forest.toInt32 (Forest.decodeUInt32LE [2, 0, 0, 0])).toNat [] with
      | none => .error "Corrupt stream."
      | some r =>
        .ok ((Forest.toInt32 (Forest.decodeUInt32LE [2, 0, 0, 0])).toNat, r) :=
  (forest_deserialize_spec (fun s => some s) _).2.2 [2, 0, 0, 0] [] rfl rfl

end Sherwood
